import Mathlib

/-!
Shallow embedding of two roosterjs editor-core subsystems:

* the selection resolver `getSelectionRangeEx` (source file 1), and
* the dark/light color transformer `transformColor` with its helpers
  `transformToLightMode`, `transformToDarkMode`,
  `transformToLightDarkOperation`, `transformToLightModeOperation`,
  `getValueOrDefault` (source file 2).

Modelling conventions:

* DOM nodes are numeric node ids (`Nat`).
* A DOM `Range` keeps only the fields this code reads: `startContainer`
  and `collapsed`.
* JavaScript truthiness of strings (falsy iff empty) is `truthyStr`;
  truthiness of `string | null | undefined` values is `truthyOpt`;
  the JS `a || b` on strings is `jsOr`.
* An HTMLElement is its observable color state: the inline style map
  (`getPropertyValue`, empty string meaning unset, so `setProperty` with
  an empty string removes the property, exactly as in the DOM), the
  attribute map (`getAttribute` returning null for absent), the
  `dataset` map, and its resolved computed style (`computed`), which is
  read through the external capability `getComputedStyles` and is not
  itself written by these functions. `hasStyle`/`hasDataset` model the
  defensive capability test `element?.dataset && element.style`.
* External capabilities from roosterjs-editor-dom (`createRange`,
  `findClosestElementAncestor`, `contains`, the live
  `window.getSelection()`) are injected as function parameters, as the
  spec directs: they are given utilities, not specified here.
* Code that throws (a TypeError from reading a property of `undefined`)
  is modelled by an `Option` result, `none` standing for the throw.
-/

/-- DOM selection range, reduced to the two fields this code reads:
the start container node (a node id) and the collapsed flag. -/
structure Range where
  startContainer : Nat
  collapsed : Bool
deriving DecidableEq

/-- SelectionRangeTypes from roosterjs-editor-types. -/
inductive SelectionRangeTypes where
  | Normal
  | TableSelection
deriving DecidableEq

/-- Serialized start/end node paths recorded before entering shadow mode. -/
structure SelectionPath where
  start : List Nat
  «end» : List Nat
deriving DecidableEq

/-- The output union NormalSelectionRange | TableSelectionRange, flattened
into one record: Normal descriptors leave `table` and `coordinates` at
`none` (the TS Normal variant simply lacks those fields). -/
structure SelectionRangeEx where
  type : SelectionRangeTypes
  ranges : List (Option Range)
  areAllCollapsed : Bool
  table : Option Nat := none
  coordinates : Option Unit := none
deriving DecidableEq

/-- The lifecycle fields of EditorCore that the selection resolver reads.
The function-valued fields `getDarkColor` and `onExternalContentTransform`
are passed to `transformColor` as explicit parameters instead, so that
core states stay decidably comparable. -/
structure Lifecycle where
  isDarkMode : Bool
  shadowEditFragment : Option Unit
  shadowEditSelectionPath : Option SelectionPath
  shadowEditTableSelectionPath : Option (List SelectionPath)
deriving DecidableEq

/-- Cached selection state updated by listeners external to this core. -/
structure DomEvent where
  selectionRange : Option Range
  tableSelectionRange : Option SelectionRangeEx
deriving DecidableEq

/-- The editor core state consumed by the selection resolver.
`hasFocus` is the result of the capability call `core.api.hasFocus(core)`. -/
structure EditorCore where
  contentDiv : Nat
  lifecycle : Lifecycle
  domEvent : DomEvent
  hasFocus : Bool
deriving DecidableEq

/-- checkAllCollapsed from the source: the number of ranges whose
`collapsed` flag is truthy (a null range gives `range?.collapsed` =
undefined, falsy) equals the total count. -/
def checkAllCollapsed (ranges : List (Option Range)) : Bool :=
  (ranges.filter fun range =>
    match range with
    | some r => r.collapsed
    | none => false).length == ranges.length

/-- createNormalSelectionEx from the source. -/
def createNormalSelectionEx (ranges : List (Option Range)) : SelectionRangeEx :=
  { type := SelectionRangeTypes.Normal
    ranges := ranges
    areAllCollapsed := checkAllCollapsed ranges }

/-- getSelectionRangeEx from the source.  The result is `none` exactly
where the source throws: in the shadow table branch it reads
`ranges[0].startContainer`, which is a TypeError when the recorded
table-selection path list is empty.  `getSelection` models
`contentDiv.ownerDocument.defaultView?.getSelection()` (`none` when the
view or selection is null, otherwise the list of its ranges, so that
`rangeCount > 0` and `getRangeAt(0)` become a match on the list).  The
dead local `result` of the source (always null) is dropped.  The single
trailing `return tableSelectionRange ?? createNormalSelectionEx(...)` of
the source is reached on three control paths here. -/
def getSelectionRangeEx
    (createRange : Nat → List Nat → List Nat → Range)
    (findClosestElementAncestor : Nat → Nat → String → Option Nat)
    (getSelection : Option (List Range))
    (contains : Nat → Range → Bool)
    (core : EditorCore) : Option SelectionRangeEx :=
  match core.lifecycle.shadowEditFragment with
  | some _ =>
    match core.lifecycle.shadowEditTableSelectionPath with
    | some paths =>
      let ranges := paths.map fun path =>
        createRange core.contentDiv path.start path.«end»
      match ranges with
      | [] => none
      | r0 :: _ =>
        some { type := SelectionRangeTypes.TableSelection
               ranges := ranges.map some
               areAllCollapsed := checkAllCollapsed (ranges.map some)
               table := findClosestElementAncestor r0.startContainer core.contentDiv "table"
               coordinates := none }
    | none =>
      let shadowRange := core.lifecycle.shadowEditSelectionPath.map fun path =>
        createRange core.contentDiv path.start path.«end»
      some (createNormalSelectionEx [shadowRange])
  | none =>
    if core.hasFocus then
      match core.domEvent.tableSelectionRange with
      | some tableRange => some tableRange
      | none =>
        match getSelection with
        | some (range :: _) =>
          if contains core.contentDiv range then
            some (createNormalSelectionEx [some range])
          else
            some ((core.domEvent.tableSelectionRange).getD
              (createNormalSelectionEx [core.domEvent.selectionRange]))
        | _ =>
          some ((core.domEvent.tableSelectionRange).getD
            (createNormalSelectionEx [core.domEvent.selectionRange]))
    else
      some ((core.domEvent.tableSelectionRange).getD
        (createNormalSelectionEx [core.domEvent.selectionRange]))

/-- JS truthiness of a string: falsy iff empty. -/
def truthyStr (s : String) : Bool := s != ""

/-- JS truthiness of a `string | null | undefined` value. -/
def truthyOpt : Option String → Bool
  | some s => s != ""
  | none => false

/-- JS `a || b` on strings. -/
def jsOr (a b : String) : String := if a != "" then a else b

/-- An HTMLElement, reduced to the state the color transformer reads and
writes.  See the module docstring for the conventions. -/
structure HTMLElement where
  style : String → String
  attr : String → Option String
  dataset : String → Option String
  computed : String → String
  hasStyle : Bool := true
  hasDataset : Bool := true

/-- Pointwise update of a style map (`style.setProperty`). -/
def setStr (f : String → String) (key value : String) : String → String :=
  fun k => if k = key then value else f k

/-- Pointwise update of an attribute or dataset map: `some v` for
`setAttribute` / dataset assignment, `none` for `removeAttribute` /
`delete dataset[key]`. -/
def setOpt (f : String → Option String) (key : String) (value : Option String) :
    String → Option String :=
  fun k => if k = key then value else f k

/-- Modelled from the spec: the four reserved dataset keys (the
DarkModeDatasetNames enum of roosterjs-editor-types is not under src/;
the spec lists original-CSS-text-color, original-HTML-text-color,
original-CSS-background-color, original-HTML-background-color).  Only
their distinctness matters; the published string values are used. -/
def DarkModeDatasetNames.OriginalStyleColor : String := "ogsc"

/-- Modelled from the spec: see `DarkModeDatasetNames.OriginalStyleColor`. -/
def DarkModeDatasetNames.OriginalAttributeColor : String := "ogac"

/-- Modelled from the spec: see `DarkModeDatasetNames.OriginalStyleColor`. -/
def DarkModeDatasetNames.OriginalStyleBackgroundColor : String := "ogsb"

/-- Modelled from the spec: see `DarkModeDatasetNames.OriginalStyleColor`. -/
def DarkModeDatasetNames.OriginalAttributeBackgroundColor : String := "ogab"

/-- One row of the ColorAttributeName table (the enum-indexed object of
the source, with the ColorAttributeEnum indices turned into fields). -/
structure ColorAttributeNames where
  cssColor : String
  htmlColor : String
  cssDataSet : String
  htmlDataSet : String
deriving DecidableEq

/-- Row 0 of ColorAttributeName: the text color channel.  The source
binds `const textColor = ColorAttributeName[0]`. -/
def textColor : ColorAttributeNames :=
  { cssColor := "color"
    htmlColor := "color"
    cssDataSet := DarkModeDatasetNames.OriginalStyleColor
    htmlDataSet := DarkModeDatasetNames.OriginalAttributeColor }

/-- Row 1 of ColorAttributeName: the background color channel. -/
def backgroundColor : ColorAttributeNames :=
  { cssColor := "background-color"
    htmlColor := "bgcolor"
    cssDataSet := DarkModeDatasetNames.OriginalStyleBackgroundColor
    htmlDataSet := DarkModeDatasetNames.OriginalAttributeBackgroundColor }

/-- The ColorAttributeName table of the source. -/
def ColorAttributeName : List ColorAttributeNames := [textColor, backgroundColor]

/-- Modelled from the spec: computed-style retrieval (getComputedStyles
from roosterjs-editor-dom, not under src/) returns the resolved value of
each requested property, read off the element field `computed`. -/
def getComputedStyles (element : HTMLElement) (props : List String) : List String :=
  props.map element.computed

/-- getValueOrDefault from the source: keep `value` when it is truthy
and not the literal strings "undefined" or "null", else the default. -/
def getValueOrDefault (value : Option String) (defaultValue : Option String) :
    Option String :=
  match value with
  | some v => if v != "" && v != "undefined" && v != "null" then some v else defaultValue
  | none => defaultValue

/-- transformToLightDarkOperation from the source.  `computedValues[index]`
becomes `computedValues.getD index ""` (an out-of-range JS index would be
undefined, hence falsy, matching the `""` default under `jsOr`). -/
def transformToLightDarkOperation (element : HTMLElement)
    (cssColor cssDataSet htmlColor htmlDataSet : String) (index : Nat)
    (getDarkColor : String → String) : HTMLElement :=
  let computedValues := getComputedStyles element ["color", "background-color"]
  let styleColor := element.style cssColor
  let attrColor := element.attr htmlColor
  if !truthyOpt (element.dataset cssDataSet) && !truthyOpt (element.dataset htmlDataSet) &&
      (truthyStr styleColor || truthyOpt attrColor) && !(styleColor == "inherit") then
    let newColor := getDarkColor
      (jsOr (computedValues.getD index "") (jsOr styleColor (attrColor.getD "")))
    let element1 := { element with
      style := setStr element.style cssColor newColor
      dataset := setOpt element.dataset cssDataSet (some (jsOr styleColor "")) }
    if truthyOpt attrColor then
      { element1 with
        attr := setOpt element1.attr htmlColor (some newColor)
        dataset := setOpt element1.dataset htmlDataSet (some (attrColor.getD "")) }
    else element1
  else element

/-- transformToDarkMode from the source: per channel, act only when
neither dataset key of the channel is truthy.  Note the indices the
source passes to transformToLightDarkOperation: 1 for the text channel
and 0 for the background channel. -/
def transformToDarkMode (element : HTMLElement)
    (getDarkColor : String → String) : HTMLElement :=
  let element1 :=
    if !truthyOpt (element.dataset textColor.cssDataSet) &&
        !truthyOpt (element.dataset textColor.htmlDataSet) then
      transformToLightDarkOperation element textColor.cssColor textColor.cssDataSet
        textColor.htmlColor textColor.htmlDataSet 1 getDarkColor
    else element
  if !truthyOpt (element1.dataset backgroundColor.cssDataSet) &&
      !truthyOpt (element1.dataset backgroundColor.htmlDataSet) then
    transformToLightDarkOperation element1 backgroundColor.cssColor
      backgroundColor.cssDataSet backgroundColor.htmlColor backgroundColor.htmlDataSet
      0 getDarkColor
  else element1

/-- transformToLightModeOperation from the source: reset the CSS property
from the recorded original-CSS value (empty string when the record is
absent or meaningless), delete that data key; restore the HTML color
attribute from the recorded original-HTML value when that value is
meaningful, else remove the attribute; delete that data key too. -/
def transformToLightModeOperation (element : HTMLElement)
    (cssColor cssDataSet htmlColor htmlDataSet : String) : HTMLElement :=
  let element1 := { element with
    style := setStr element.style cssColor
      ((getValueOrDefault (element.dataset cssDataSet) (some "")).getD "")
    dataset := setOpt element.dataset cssDataSet none }
  let value := element1.dataset htmlDataSet
  let element2 :=
    if (getValueOrDefault value none).isSome then
      { element1 with attr := setOpt element1.attr htmlColor value }
    else
      { element1 with attr := setOpt element1.attr htmlColor none }
  { element2 with dataset := setOpt element2.dataset htmlDataSet none }

/-- transformToLightMode from the source: per channel, call the reset
operation only when neither dataset key of the channel is truthy (the
same guard shape as the dark direction). -/
def transformToLightMode (element : HTMLElement) : HTMLElement :=
  let element1 :=
    if !truthyOpt (element.dataset textColor.cssDataSet) &&
        !truthyOpt (element.dataset textColor.htmlDataSet) then
      transformToLightModeOperation element textColor.cssColor textColor.cssDataSet
        textColor.htmlColor textColor.htmlDataSet
    else element
  if !truthyOpt (element1.dataset backgroundColor.cssDataSet) &&
      !truthyOpt (element1.dataset backgroundColor.htmlDataSet) then
    transformToLightModeOperation element1 backgroundColor.cssColor
      backgroundColor.cssDataSet backgroundColor.htmlColor backgroundColor.htmlDataSet
  else element1

/-- ColorTransformDirection from roosterjs-editor-types. -/
inductive ColorTransformDirection where
  | LightToDark
  | DarkToLight
deriving DecidableEq

/-- The subtree the transformer works on: the elements getAll collects,
keyed by node id.  getAll itself only walks the DOM tree (rootNode, its
descendants or the fragment contents); its traversal is abstracted into
this id-indexed list, which is what the rest of transformColor consumes. -/
structure TransformDoc where
  elems : List (Nat × HTMLElement)

/-- transformColor from the source.  The EditorCore is represented by the
three lifecycle fields the function reads (`isDarkMode`,
`onExternalContentTransform`, `getDarkColor`); `(rootNode, includeSelf)`
is abstracted into `doc` (the getAll view of the subtree, computed before
the callback runs, as on the source line ordering).  The second component
of the result counts how many times the caller-supplied callback was
invoked (`callback?.()`: once when provided, never otherwise).  The
per-element application keeps the source guard
`element?.dataset && element.style`. -/
def transformColor (isDarkMode : Bool)
    (onExternalContentTransform : Option (HTMLElement → HTMLElement))
    (getDarkColor : String → String)
    (doc : TransformDoc)
    (callback : Option (TransformDoc → TransformDoc))
    (direction : ColorTransformDirection) : TransformDoc × Nat :=
  let elementsToTransform : List Nat :=
    if isDarkMode then doc.elems.map Prod.fst else []
  let transformFunction : HTMLElement → HTMLElement :=
    if direction = ColorTransformDirection.DarkToLight then
      transformToLightMode
    else
      match onExternalContentTransform with
      | some f => f
      | none => fun element => transformToDarkMode element getDarkColor
  let afterCallback : TransformDoc × Nat :=
    match callback with
    | some cb => (cb doc, 1)
    | none => (doc, 0)
  (⟨afterCallback.1.elems.map fun p =>
      if elementsToTransform.contains p.1 && p.2.hasDataset && p.2.hasStyle then
        (p.1, transformFunction p.2)
      else p⟩,
    afterCallback.2)

/-- The guard condition of transformToLightDarkOperation, named so the
proofs below can do case analysis on it.  Identical to the inline
condition of the definition above. -/
def ldCond (element : HTMLElement) (cssColor cssDataSet htmlColor htmlDataSet : String) :
    Bool :=
  !truthyOpt (element.dataset cssDataSet) && !truthyOpt (element.dataset htmlDataSet) &&
    (truthyStr (element.style cssColor) || truthyOpt (element.attr htmlColor)) &&
    !(element.style cssColor == "inherit")

/-- The acting branch of transformToLightDarkOperation, named for the
proofs below.  Identical to the then-branch of the definition above. -/
def ldAct (element : HTMLElement) (cssColor cssDataSet htmlColor htmlDataSet : String)
    (index : Nat) (getDarkColor : String → String) : HTMLElement :=
  let computedValues := getComputedStyles element ["color", "background-color"]
  let styleColor := element.style cssColor
  let attrColor := element.attr htmlColor
  let newColor := getDarkColor
    (jsOr (computedValues.getD index "") (jsOr styleColor (attrColor.getD "")))
  let element1 := { element with
    style := setStr element.style cssColor newColor
    dataset := setOpt element.dataset cssDataSet (some (jsOr styleColor "")) }
  if truthyOpt attrColor then
    { element1 with
      attr := setOpt element1.attr htmlColor (some newColor)
      dataset := setOpt element1.dataset htmlDataSet (some (attrColor.getD "")) }
  else element1

/-- One channel of transformToDarkMode (the guarded call on one row of
the ColorAttributeName table), named for the proofs below. -/
def darkChannelStep (names : ColorAttributeNames) (index : Nat)
    (getDarkColor : String → String) (element : HTMLElement) : HTMLElement :=
  if !truthyOpt (element.dataset names.cssDataSet) &&
      !truthyOpt (element.dataset names.htmlDataSet) then
    transformToLightDarkOperation element names.cssColor names.cssDataSet
      names.htmlColor names.htmlDataSet index getDarkColor
  else element

/-- A sample getDarkColor capability, injective on the sample colors. -/
def gdc0 : String → String := fun s => "dark:" ++ s

/-- Sample element: inline style color red, no attributes, empty dataset,
computed color black and computed background white. -/
def e1sample : HTMLElement :=
  { style := fun k => if k = "color" then "red" else ""
    attr := fun _ => none
    dataset := fun _ => none
    computed := fun k => if k = "color" then "rgb(0,0,0)" else "rgb(255,255,255)" }

/-- Sample element carrying a recorded original text color in its
dataset, as a dark transform leaves it. -/
def e2a : HTMLElement :=
  { style := fun k => if k = "color" then "darkred" else ""
    attr := fun _ => none
    dataset := fun k => if k = DarkModeDatasetNames.OriginalStyleColor then some "red" else none
    computed := fun _ => "" }

/-- Sample element with a color attribute and inline color but no
recorded dataset values. -/
def e2b : HTMLElement :=
  { style := fun k => if k = "color" then "blue" else ""
    attr := fun k => if k = "color" then some "blue" else none
    dataset := fun _ => none
    computed := fun _ => "" }

/-- Sample element with distinct computed color and computed background
color, plus inline values on both channels. -/
def e4sample : HTMLElement :=
  { style := fun k => if k = "color" then "red" else
      if k = "background-color" then "green" else ""
    attr := fun _ => none
    dataset := fun _ => none
    computed := fun k => if k = "color" then "rgb(1,1,1)" else "rgb(2,2,2)" }

/-- Sample element whose inline color style is the literal inherit. -/
def e9sample : HTMLElement :=
  { style := fun k => if k = "color" then "inherit" else ""
    attr := fun k => if k = "color" then some "red" else none
    dataset := fun _ => none
    computed := fun _ => "rgb(3,3,3)" }

/-- Sample createRange capability. -/
def cr0 : Nat → List Nat → List Nat → Range :=
  fun _ _ _ => { startContainer := 0, collapsed := true }

/-- Sample findClosestElementAncestor capability. -/
def fca0 : Nat → Nat → String → Option Nat := fun _ _ _ => none

/-- Sample contains capability. -/
def ct0 : Nat → Range → Bool := fun _ _ => false

/-- Core state in shadow mode whose recorded table-selection path list is
empty: the malformed shape named by the spec. -/
def core7 : EditorCore :=
  { contentDiv := 0
    lifecycle := { isDarkMode := false
                   shadowEditFragment := some ()
                   shadowEditSelectionPath := none
                   shadowEditTableSelectionPath := some [] }
    domEvent := { selectionRange := none, tableSelectionRange := none }
    hasFocus := false }

/-- Core state outside shadow mode, without focus, with only a cached
plain selection range. -/
def core8 : EditorCore :=
  { contentDiv := 0
    lifecycle := { isDarkMode := false
                   shadowEditFragment := none
                   shadowEditSelectionPath := none
                   shadowEditTableSelectionPath := none }
    domEvent := { selectionRange := some { startContainer := 5, collapsed := false }
                  tableSelectionRange := none }
    hasFocus := false }

/-- A shadow-mode lifecycle with a recorded plain selection path. -/
def lifecycle6 : Lifecycle :=
  { isDarkMode := false
    shadowEditFragment := some ()
    shadowEditSelectionPath := some { start := [0], «end» := [1] }
    shadowEditTableSelectionPath := none }

/-- Shadow-mode core with focus and a populated cached selection. -/
def core6a : EditorCore :=
  { contentDiv := 0
    lifecycle := lifecycle6
    domEvent := { selectionRange := some { startContainer := 7, collapsed := true }
                  tableSelectionRange := none }
    hasFocus := true }

/-- Shadow-mode core without focus and with a contradictory cached table
selection. -/
def core6b : EditorCore :=
  { contentDiv := 0
    lifecycle := lifecycle6
    domEvent := { selectionRange := none
                  tableSelectionRange := some (createNormalSelectionEx []) }
    hasFocus := false }

/-- An element with empty state, used in the transformColor samples. -/
def eSimple : HTMLElement :=
  { style := fun _ => "", attr := fun _ => none, dataset := fun _ => none
    computed := fun _ => "" }

/-- A one-element subtree. -/
def doc0 : TransformDoc := ⟨[(0, eSimple)]⟩

/-- A callback that inserts a new element (id 1) into the subtree. -/
def cb0 : TransformDoc → TransformDoc := fun d => ⟨d.elems ++ [(1, eSimple)]⟩

theorem ldOp_char (element : HTMLElement) (cssColor cssDataSet htmlColor htmlDataSet : String)
    (index : Nat) (getDarkColor : String → String) :
    transformToLightDarkOperation element cssColor cssDataSet htmlColor htmlDataSet index getDarkColor =
      if ldCond element cssColor cssDataSet htmlColor htmlDataSet then
        ldAct element cssColor cssDataSet htmlColor htmlDataSet index getDarkColor
      else element := rfl

theorem ldOp_style_frame (element : HTMLElement) (cssColor cssDataSet htmlColor htmlDataSet : String)
    (index : Nat) (getDarkColor : String → String) (k : String) (hk : k ≠ cssColor) :
    (transformToLightDarkOperation element cssColor cssDataSet htmlColor htmlDataSet index getDarkColor).style k =
      element.style k := by
  rw [ldOp_char]
  split
  · unfold ldAct
    dsimp only
    split <;> simp [setStr, hk]
  · rfl

theorem ldOp_attr_frame (element : HTMLElement) (cssColor cssDataSet htmlColor htmlDataSet : String)
    (index : Nat) (getDarkColor : String → String) (k : String) (hk : k ≠ htmlColor) :
    (transformToLightDarkOperation element cssColor cssDataSet htmlColor htmlDataSet index getDarkColor).attr k =
      element.attr k := by
  rw [ldOp_char]
  split
  · unfold ldAct
    dsimp only
    split <;> simp [setOpt, hk]
  · rfl

theorem ldOp_dataset_frame (element : HTMLElement) (cssColor cssDataSet htmlColor htmlDataSet : String)
    (index : Nat) (getDarkColor : String → String) (k : String)
    (h1 : k ≠ cssDataSet) (h2 : k ≠ htmlDataSet) :
    (transformToLightDarkOperation element cssColor cssDataSet htmlColor htmlDataSet index getDarkColor).dataset k =
      element.dataset k := by
  rw [ldOp_char]
  split
  · unfold ldAct
    dsimp only
    split <;> simp [setOpt, h1, h2]
  · rfl

theorem ldOp_computed (element : HTMLElement) (cssColor cssDataSet htmlColor htmlDataSet : String)
    (index : Nat) (getDarkColor : String → String) :
    (transformToLightDarkOperation element cssColor cssDataSet htmlColor htmlDataSet index getDarkColor).computed =
      element.computed := by
  rw [ldOp_char]
  split
  · unfold ldAct
    dsimp only
    split <;> rfl
  · rfl

theorem ldOp_skip (element : HTMLElement) (cssColor cssDataSet htmlColor htmlDataSet : String)
    (index : Nat) (getDarkColor : String → String)
    (h : ldCond element cssColor cssDataSet htmlColor htmlDataSet = false) :
    transformToLightDarkOperation element cssColor cssDataSet htmlColor htmlDataSet index getDarkColor =
      element := by
  rw [ldOp_char, h]
  rfl

theorem ldOp_post (element : HTMLElement) (cssColor cssDataSet htmlColor htmlDataSet : String)
    (index : Nat) (getDarkColor : String → String)
    (hne : cssDataSet ≠ htmlDataSet)
    (h : ldCond element cssColor cssDataSet htmlColor htmlDataSet = true) :
    (truthyOpt ((transformToLightDarkOperation element cssColor cssDataSet htmlColor htmlDataSet index getDarkColor).dataset cssDataSet) ||
      truthyOpt ((transformToLightDarkOperation element cssColor cssDataSet htmlColor htmlDataSet index getDarkColor).dataset htmlDataSet)) = true := by
  rw [ldOp_char, h, if_pos rfl]
  have hcond := h
  unfold ldCond at hcond
  simp only [Bool.and_eq_true] at hcond
  obtain ⟨⟨⟨hds1, hds2⟩, hsa⟩, hinh⟩ := hcond
  unfold ldAct
  dsimp only
  cases hsc : truthyStr (element.style cssColor) with
  | true =>
    have hne2 : ¬(cssDataSet = htmlDataSet) := hne
    unfold truthyStr at hsc
    split <;>
      simp [setOpt, hne2, jsOr, hsc, truthyOpt]
  | false =>
    rw [hsc] at hsa
    simp only [Bool.false_or] at hsa
    rw [if_pos hsa]
    obtain ⟨v, hv⟩ : ∃ v, element.attr htmlColor = some v := by
      cases hval : element.attr htmlColor with
      | none => rw [hval] at hsa; simp [truthyOpt] at hsa
      | some v => exact ⟨v, rfl⟩
    rw [Bool.or_eq_true]
    right
    simp [setOpt, hv]
    rw [hv] at hsa
    simpa [truthyOpt] using hsa

theorem darkStep_style_frame (names : ColorAttributeNames) (index : Nat)
    (getDarkColor : String → String) (element : HTMLElement) (k : String)
    (hk : k ≠ names.cssColor) :
    (darkChannelStep names index getDarkColor element).style k = element.style k := by
  unfold darkChannelStep
  split
  · exact ldOp_style_frame element names.cssColor names.cssDataSet names.htmlColor
      names.htmlDataSet index getDarkColor k hk
  · rfl

theorem darkStep_attr_frame (names : ColorAttributeNames) (index : Nat)
    (getDarkColor : String → String) (element : HTMLElement) (k : String)
    (hk : k ≠ names.htmlColor) :
    (darkChannelStep names index getDarkColor element).attr k = element.attr k := by
  unfold darkChannelStep
  split
  · exact ldOp_attr_frame element names.cssColor names.cssDataSet names.htmlColor
      names.htmlDataSet index getDarkColor k hk
  · rfl

theorem darkStep_dataset_frame (names : ColorAttributeNames) (index : Nat)
    (getDarkColor : String → String) (element : HTMLElement) (k : String)
    (h1 : k ≠ names.cssDataSet) (h2 : k ≠ names.htmlDataSet) :
    (darkChannelStep names index getDarkColor element).dataset k = element.dataset k := by
  unfold darkChannelStep
  split
  · exact ldOp_dataset_frame element names.cssColor names.cssDataSet names.htmlColor
      names.htmlDataSet index getDarkColor k h1 h2
  · rfl

theorem darkStep_self (names : ColorAttributeNames) (index : Nat)
    (getDarkColor : String → String) (element : HTMLElement)
    (hne : names.cssDataSet ≠ names.htmlDataSet) :
    darkChannelStep names index getDarkColor (darkChannelStep names index getDarkColor element) =
      darkChannelStep names index getDarkColor element := by
  by_cases hg : (!truthyOpt (element.dataset names.cssDataSet) &&
      !truthyOpt (element.dataset names.htmlDataSet)) = true
  · have hstep : darkChannelStep names index getDarkColor element =
        transformToLightDarkOperation element names.cssColor names.cssDataSet
          names.htmlColor names.htmlDataSet index getDarkColor := by
      unfold darkChannelStep
      rw [if_pos hg]
    by_cases hc : ldCond element names.cssColor names.cssDataSet names.htmlColor
        names.htmlDataSet = true
    · have hpost := ldOp_post element names.cssColor names.cssDataSet names.htmlColor
        names.htmlDataSet index getDarkColor hne hc
      rw [hstep]
      unfold darkChannelStep
      rw [if_neg]
      intro hcontra
      simp only [Bool.and_eq_true, Bool.not_eq_eq_eq_not, Bool.not_true] at hcontra
      obtain ⟨hc1, hc2⟩ := hcontra
      rw [hc1, hc2] at hpost
      simp at hpost
    · have hcf : ldCond element names.cssColor names.cssDataSet names.htmlColor
          names.htmlDataSet = false := by
        cases hval : ldCond element names.cssColor names.cssDataSet names.htmlColor
            names.htmlDataSet
        · rfl
        · exact absurd hval hc
      have hse : darkChannelStep names index getDarkColor element = element := by
        rw [hstep]
        exact ldOp_skip element names.cssColor names.cssDataSet names.htmlColor
          names.htmlDataSet index getDarkColor hcf
      rw [hse]
      exact hse
  · have hse : darkChannelStep names index getDarkColor element = element := by
      unfold darkChannelStep
      rw [if_neg hg]
    rw [hse]
    exact hse

theorem ldCond_congr (e1 e2 : HTMLElement) (cssColor cssDataSet htmlColor htmlDataSet : String)
    (hds1 : e1.dataset cssDataSet = e2.dataset cssDataSet)
    (hds2 : e1.dataset htmlDataSet = e2.dataset htmlDataSet)
    (hst : e1.style cssColor = e2.style cssColor)
    (hat : e1.attr htmlColor = e2.attr htmlColor) :
    ldCond e1 cssColor cssDataSet htmlColor htmlDataSet =
      ldCond e2 cssColor cssDataSet htmlColor htmlDataSet := by
  unfold ldCond
  rw [hds1, hds2, hst, hat]

theorem bool_ne_true (b : Bool) (h : ¬ b = true) : b = false := by
  cases b
  · rfl
  · exact absurd rfl h

theorem guard_false_of_post (a b : Bool) (h : (a || b) = true) : (!a && !b) = false := by
  cases a <;> cases b <;> simp_all

theorem darkStep_char (names : ColorAttributeNames) (index : Nat)
    (getDarkColor : String → String) (element : HTMLElement) :
    darkChannelStep names index getDarkColor element =
      if (!truthyOpt (element.dataset names.cssDataSet) &&
          !truthyOpt (element.dataset names.htmlDataSet)) = true then
        transformToLightDarkOperation element names.cssColor names.cssDataSet
          names.htmlColor names.htmlDataSet index getDarkColor
      else element := rfl

theorem darkStep_pos (names : ColorAttributeNames) (index : Nat)
    (getDarkColor : String → String) (element : HTMLElement)
    (hg : (!truthyOpt (element.dataset names.cssDataSet) &&
        !truthyOpt (element.dataset names.htmlDataSet)) = true) :
    darkChannelStep names index getDarkColor element =
      transformToLightDarkOperation element names.cssColor names.cssDataSet
        names.htmlColor names.htmlDataSet index getDarkColor := by
  rw [darkStep_char, if_pos hg]

theorem darkStep_neg (names : ColorAttributeNames) (index : Nat)
    (getDarkColor : String → String) (element : HTMLElement)
    (hg : (!truthyOpt (element.dataset names.cssDataSet) &&
        !truthyOpt (element.dataset names.htmlDataSet)) = false) :
    darkChannelStep names index getDarkColor element = element := by
  rw [darkStep_char, hg]
  rfl

theorem darkStep_skip_cond (names : ColorAttributeNames) (index : Nat)
    (getDarkColor : String → String) (element : HTMLElement)
    (hc : ldCond element names.cssColor names.cssDataSet names.htmlColor
      names.htmlDataSet = false) :
    darkChannelStep names index getDarkColor element = element := by
  by_cases hg : (!truthyOpt (element.dataset names.cssDataSet) &&
      !truthyOpt (element.dataset names.htmlDataSet)) = true
  · rw [darkStep_pos names index getDarkColor element hg]
    exact ldOp_skip element names.cssColor names.cssDataSet names.htmlColor
      names.htmlDataSet index getDarkColor hc
  · exact darkStep_neg names index getDarkColor element
      (bool_ne_true _ hg)

theorem darkStep_cross (n1 n2 : ColorAttributeNames) (i1 i2 : Nat)
    (getDarkColor : String → String) (element : HTMLElement)
    (h11 : n1.cssDataSet ≠ n1.htmlDataSet)
    (h1c : n1.cssDataSet ≠ n2.cssDataSet) (h1h : n1.cssDataSet ≠ n2.htmlDataSet)
    (h2c : n1.htmlDataSet ≠ n2.cssDataSet) (h2h : n1.htmlDataSet ≠ n2.htmlDataSet)
    (hcc : n1.cssColor ≠ n2.cssColor) (hhh : n1.htmlColor ≠ n2.htmlColor) :
    darkChannelStep n1 i1 getDarkColor
        (darkChannelStep n2 i2 getDarkColor (darkChannelStep n1 i1 getDarkColor element)) =
      darkChannelStep n2 i2 getDarkColor (darkChannelStep n1 i1 getDarkColor element) := by
  have fds1 := darkStep_dataset_frame n2 i2 getDarkColor
    (darkChannelStep n1 i1 getDarkColor element) n1.cssDataSet h1c h1h
  have fds2 := darkStep_dataset_frame n2 i2 getDarkColor
    (darkChannelStep n1 i1 getDarkColor element) n1.htmlDataSet h2c h2h
  have fst1 := darkStep_style_frame n2 i2 getDarkColor
    (darkChannelStep n1 i1 getDarkColor element) n1.cssColor hcc
  have fat1 := darkStep_attr_frame n2 i2 getDarkColor
    (darkChannelStep n1 i1 getDarkColor element) n1.htmlColor hhh
  by_cases hg : (!truthyOpt (element.dataset n1.cssDataSet) &&
      !truthyOpt (element.dataset n1.htmlDataSet)) = true
  · by_cases hc : ldCond element n1.cssColor n1.cssDataSet n1.htmlColor n1.htmlDataSet = true
    · have hpost := ldOp_post element n1.cssColor n1.cssDataSet n1.htmlColor
        n1.htmlDataSet i1 getDarkColor h11 hc
      rw [← darkStep_pos n1 i1 getDarkColor element hg] at hpost
      apply darkStep_neg
      rw [fds1, fds2]
      exact guard_false_of_post _ _ hpost
    · have hcf := bool_ne_true _ hc
      have hse := darkStep_skip_cond n1 i1 getDarkColor element hcf
      rw [hse] at fds1 fds2 fst1 fat1
      have hcongr := ldCond_congr (darkChannelStep n2 i2 getDarkColor element) element
        n1.cssColor n1.cssDataSet n1.htmlColor n1.htmlDataSet fds1 fds2 fst1 fat1
      rw [hse]
      exact darkStep_skip_cond n1 i1 getDarkColor
        (darkChannelStep n2 i2 getDarkColor element) (hcongr.trans hcf)
  · have hgf := bool_ne_true _ hg
    have hse := darkStep_neg n1 i1 getDarkColor element hgf
    rw [hse] at fds1 fds2
    rw [hse]
    apply darkStep_neg
    rw [fds1, fds2]
    exact hgf

theorem transformToDarkMode_char (element : HTMLElement) (getDarkColor : String → String) :
    transformToDarkMode element getDarkColor =
      darkChannelStep backgroundColor 0 getDarkColor
        (darkChannelStep textColor 1 getDarkColor element) := rfl

/-- Claim C3: applying the light-to-dark per-element transform twice in
succession yields the same element state as applying it once. -/
theorem claim_C3 (element : HTMLElement) (getDarkColor : String → String) :
    transformToDarkMode (transformToDarkMode element getDarkColor) getDarkColor =
      transformToDarkMode element getDarkColor := by
  simp only [transformToDarkMode_char]
  rw [darkStep_cross textColor backgroundColor 1 0 getDarkColor element
    (by decide) (by decide) (by decide) (by decide) (by decide) (by decide) (by decide)]
  exact darkStep_self backgroundColor 0 getDarkColor
    (darkChannelStep textColor 1 getDarkColor element) (by decide)

/-- Claim C9: an element whose inline style value for the text channel is
the literal inherit is left unchanged by the light-to-dark transform on
its color style, color attribute and text-channel dataset keys. -/
theorem claim_C9 (element : HTMLElement) (getDarkColor : String → String)
    (h : element.style "color" = "inherit") :
    (transformToDarkMode element getDarkColor).style "color" = element.style "color" ∧
    (transformToDarkMode element getDarkColor).attr "color" = element.attr "color" ∧
    (transformToDarkMode element getDarkColor).dataset DarkModeDatasetNames.OriginalStyleColor =
      element.dataset DarkModeDatasetNames.OriginalStyleColor ∧
    (transformToDarkMode element getDarkColor).dataset DarkModeDatasetNames.OriginalAttributeColor =
      element.dataset DarkModeDatasetNames.OriginalAttributeColor := by
  have hcf : ldCond element textColor.cssColor textColor.cssDataSet textColor.htmlColor
      textColor.htmlDataSet = false := by
    unfold ldCond
    have : element.style textColor.cssColor = "inherit" := h
    rw [this]
    simp
  have hT := darkStep_skip_cond textColor 1 getDarkColor element hcf
  rw [transformToDarkMode_char, hT]
  refine ⟨?_, ?_, ?_, ?_⟩
  · exact darkStep_style_frame backgroundColor 0 getDarkColor element "color" (by decide)
  · exact darkStep_attr_frame backgroundColor 0 getDarkColor element "color" (by decide)
  · exact darkStep_dataset_frame backgroundColor 0 getDarkColor element
      DarkModeDatasetNames.OriginalStyleColor (by decide) (by decide)
  · exact darkStep_dataset_frame backgroundColor 0 getDarkColor element
      DarkModeDatasetNames.OriginalAttributeColor (by decide) (by decide)

theorem claim_C9_witness :
    e9sample.style "color" = "inherit" ∧
    ((transformToDarkMode e9sample gdc0).style "color" = e9sample.style "color" ∧
      (transformToDarkMode e9sample gdc0).attr "color" = e9sample.attr "color" ∧
      (transformToDarkMode e9sample gdc0).dataset DarkModeDatasetNames.OriginalStyleColor =
        e9sample.dataset DarkModeDatasetNames.OriginalStyleColor ∧
      (transformToDarkMode e9sample gdc0).dataset DarkModeDatasetNames.OriginalAttributeColor =
        e9sample.dataset DarkModeDatasetNames.OriginalAttributeColor) :=
  ⟨rfl, claim_C9 e9sample gdc0 rfl⟩

/-- Claim C5: areAllCollapsed is true iff the number of collapsed ranges
(a missing/null range counting as not collapsed) equals the total range
count, and an empty range sequence counts as all collapsed. -/
theorem claim_C5 :
    (∀ ranges : List (Option Range),
      (checkAllCollapsed ranges = true ↔
        ranges.countP (fun range =>
          match range with
          | some r => r.collapsed
          | none => false) = ranges.length)) ∧
    checkAllCollapsed ([] : List (Option Range)) = true := by
  constructor
  · intro ranges
    rw [checkAllCollapsed, List.countP_eq_length_filter]
    exact beq_iff_eq
  · rfl

/-- Claim C6: with a shadow fragment attached, the resolver result does
not depend on the cached domEvent ranges, the focus state, the live
platform selection or the containment check. -/
theorem claim_C6 (createRange : Nat → List Nat → List Nat → Range)
    (findClosestElementAncestor : Nat → Nat → String → Option Nat)
    (gs1 gs2 : Option (List Range)) (ct1 ct2 : Nat → Range → Bool)
    (c1 c2 : EditorCore)
    (hdiv : c1.contentDiv = c2.contentDiv)
    (hlife : c1.lifecycle = c2.lifecycle)
    (hshadow : c1.lifecycle.shadowEditFragment.isSome = true) :
    getSelectionRangeEx createRange findClosestElementAncestor gs1 ct1 c1 =
      getSelectionRangeEx createRange findClosestElementAncestor gs2 ct2 c2 := by
  obtain ⟨u, hu⟩ := Option.isSome_iff_exists.mp (hlife ▸ hshadow)
  unfold getSelectionRangeEx
  simp only [hlife, hdiv, hu]

theorem claim_C6_witness :
    core6a.contentDiv = core6b.contentDiv ∧
    core6a.lifecycle = core6b.lifecycle ∧
    core6a.lifecycle.shadowEditFragment.isSome = true ∧
    getSelectionRangeEx cr0 fca0 (some [{ startContainer := 9, collapsed := false }])
        (fun _ _ => true) core6a =
      getSelectionRangeEx cr0 fca0 none ct0 core6b :=
  ⟨rfl, rfl, rfl,
    claim_C6 cr0 fca0 (some [{ startContainer := 9, collapsed := false }]) none
      (fun _ _ => true) ct0 core6a core6b rfl rfl rfl⟩

/-- Claim C7 counterexample: with shadow mode active and an empty
recorded table-selection path list, the resolver returns no descriptor
at all (the source throws on ranges[0].startContainer). -/
theorem claim_C7_counterexample :
    getSelectionRangeEx cr0 fca0 none ct0 core7 = none := rfl

/-- Claim C7, amended: the resolver returns a descriptor for every core
state whose recorded table-selection path list, when present, is
non-empty. -/
theorem claim_C7 (createRange : Nat → List Nat → List Nat → Range)
    (findClosestElementAncestor : Nat → Nat → String → Option Nat)
    (getSelection : Option (List Range)) (contains : Nat → Range → Bool)
    (core : EditorCore)
    (h : core.lifecycle.shadowEditTableSelectionPath ≠ some []) :
    (getSelectionRangeEx createRange findClosestElementAncestor getSelection contains
      core).isSome = true := by
  unfold getSelectionRangeEx
  cases hf : core.lifecycle.shadowEditFragment with
  | some u =>
    cases ht : core.lifecycle.shadowEditTableSelectionPath with
    | some paths =>
      cases paths with
      | nil => exact absurd ht h
      | cons p ps => simp
    | none => simp
  | none =>
    cases hfoc : core.hasFocus with
    | true =>
      cases htr : core.domEvent.tableSelectionRange with
      | some t => simp [htr]
      | none =>
        cases getSelection with
        | some rs =>
          cases rs with
          | nil => simp
          | cons r rest =>
            simp only [htr]
            cases hct : contains core.contentDiv r <;> simp [hct]
        | none => simp
    | false => simp

theorem claim_C7_witness :
    core8.lifecycle.shadowEditTableSelectionPath ≠ some [] ∧
    (getSelectionRangeEx cr0 fca0 none ct0 core8).isSome = true :=
  ⟨by decide, claim_C7 cr0 fca0 none ct0 core8 (by decide)⟩

/-- Claim C8: shadow mode inactive, no focus, no cached table range: the
resolver returns exactly the cached selectionRange wrapped as Normal. -/
theorem claim_C8 (createRange : Nat → List Nat → List Nat → Range)
    (findClosestElementAncestor : Nat → Nat → String → Option Nat)
    (getSelection : Option (List Range)) (contains : Nat → Range → Bool)
    (core : EditorCore)
    (h1 : core.lifecycle.shadowEditFragment = none)
    (h2 : core.hasFocus = false)
    (h3 : core.domEvent.tableSelectionRange = none) :
    getSelectionRangeEx createRange findClosestElementAncestor getSelection contains core =
      some (createNormalSelectionEx [core.domEvent.selectionRange]) := by
  unfold getSelectionRangeEx
  simp [h1, h2, h3]

theorem claim_C8_witness :
    core8.lifecycle.shadowEditFragment = none ∧
    core8.hasFocus = false ∧
    core8.domEvent.tableSelectionRange = none ∧
    getSelectionRangeEx cr0 fca0 none ct0 core8 =
      some (createNormalSelectionEx [core8.domEvent.selectionRange]) :=
  ⟨rfl, rfl, rfl, claim_C8 cr0 fca0 none ct0 core8 rfl rfl rfl⟩

theorem filter_fst_map_untouched (tf : HTMLElement → HTMLElement) (ids : List Nat)
    (id : Nat) (hid : ids.contains id = false) (l : List (Nat × HTMLElement)) :
    (l.map fun p =>
        if ids.contains p.1 && p.2.hasDataset && p.2.hasStyle then (p.1, tf p.2)
        else p).filter (fun p => p.1 == id) =
      l.filter (fun p => p.1 == id) := by
  induction l with
  | nil => rfl
  | cons p t ih =>
    simp only [List.map_cons]
    by_cases hp : p.1 = id
    · have hgp : (if ids.contains p.1 && p.2.hasDataset && p.2.hasStyle then (p.1, tf p.2)
          else p) = p := by
        have hc : ids.contains p.1 = false := by rw [hp]; exact hid
        rw [hc]
        simp
      have hq : (p.1 == id) = true := by simp [hp]
      rw [hgp]
      simp only [List.filter_cons]
      rw [if_pos hq, ih, if_pos hq]
    · have hq : ¬ ((p.1 == id) = true) := by simp [hp]
      have hq2 : ¬ (((if ids.contains p.1 && p.2.hasDataset && p.2.hasStyle then (p.1, tf p.2)
          else p).1 == id) = true) := by
        split <;> simpa using hp
      simp only [List.filter_cons]
      rw [if_neg hq2, if_neg hq, ih]

/-- Claim C10: transformColor collects the element set before invoking
the callback, so elements the callback inserts are left untouched by the
same call, and the callback runs exactly once whatever the mode and
direction. -/
theorem claim_C10 (isDarkMode : Bool)
    (onExternalContentTransform : Option (HTMLElement → HTMLElement))
    (getDarkColor : String → String) (doc : TransformDoc)
    (cb : TransformDoc → TransformDoc) (direction : ColorTransformDirection)
    (id : Nat) (h : id ∉ doc.elems.map Prod.fst) :
    ((transformColor isDarkMode onExternalContentTransform getDarkColor doc
        (some cb) direction).1.elems.filter (fun p => p.1 == id)) =
      ((cb doc).elems.filter (fun p => p.1 == id)) ∧
    (transformColor isDarkMode onExternalContentTransform getDarkColor doc
      (some cb) direction).2 = 1 := by
  constructor
  · have hcont : (if isDarkMode then doc.elems.map Prod.fst else []).contains id = false := by
      cases isDarkMode
      · rfl
      · simp only [if_true]
        cases hcm : (doc.elems.map Prod.fst).contains id
        · rfl
        · exact absurd (List.elem_iff.mp hcm) h
    exact filter_fst_map_untouched _ _ id hcont (cb doc).elems
  · rfl

theorem claim_C10_witness :
    (1 ∉ doc0.elems.map Prod.fst) ∧
    (((transformColor true none gdc0 doc0 (some cb0)
          ColorTransformDirection.LightToDark).1.elems.filter (fun p => p.1 == 1)) =
        ((cb0 doc0).elems.filter (fun p => p.1 == 1)) ∧
      (transformColor true none gdc0 doc0 (some cb0)
        ColorTransformDirection.LightToDark).2 = 1) :=
  ⟨by decide,
    claim_C10 true none gdc0 doc0 cb0 ColorTransformDirection.LightToDark 1 (by decide)⟩

/-- Claim C1 fails on the code: after light-to-dark then dark-to-light on
an element whose inline color was red, the inline style keeps the dark
replacement color and the recorded-original dataset key is still set,
because transformToLightMode only calls the reset operation when both
dataset keys of the channel are absent.  This theorem evaluates the code
at that failing input. -/
theorem claim_C1_code_bug :
    (transformToLightMode (transformToDarkMode e1sample gdc0)).style "color" =
        "dark:rgb(255,255,255)" ∧
      (transformToLightMode (transformToDarkMode e1sample gdc0)).dataset
        DarkModeDatasetNames.OriginalStyleColor = some "red" :=
  ⟨rfl, rfl⟩

/-- Claim C2 fails on the code: the dark-to-light reset runs exactly when
NEITHER data key of the channel is set.  On e2a (recorded original
present) nothing is reset; on e2b (no recorded original) the inline color
is cleared and the color attribute removed instead of being left
unchanged.  This theorem evaluates the code at both failing inputs. -/
theorem claim_C2_code_bug :
    (transformToLightMode e2a).style "color" = "darkred" ∧
    (transformToLightMode e2a).dataset DarkModeDatasetNames.OriginalStyleColor = some "red" ∧
    e2b.style "color" = "blue" ∧
    e2b.attr "color" = some "blue" ∧
    (transformToLightMode e2b).style "color" = "" ∧
    (transformToLightMode e2b).attr "color" = none :=
  ⟨rfl, rfl, rfl, rfl, rfl, rfl⟩

/-- Claim C4 fails on the code: the light-to-dark transform passes the
computed background-color (computedValues[1]) to getDarkColor for the
text channel and the computed color (computedValues[0]) for the
background channel, the indices being swapped.  This theorem evaluates
the code at an input with distinct computed values. -/
theorem claim_C4_code_bug :
    e4sample.computed "color" = "rgb(1,1,1)" ∧
    e4sample.computed "background-color" = "rgb(2,2,2)" ∧
    (transformToDarkMode e4sample gdc0).style "color" = "dark:rgb(2,2,2)" ∧
    (transformToDarkMode e4sample gdc0).style "background-color" = "dark:rgb(1,1,1)" :=
  ⟨rfl, rfl, rfl, rfl⟩
